import Mathlib

/-!
Verification of the vehicle face-recognition access-control firmware
(`src/esp32cam-pio/src/main.cpp`).

The per-cycle behaviour of `loop()` and the helpers `loadAuthorizedFace`
and `sendToThingSpeak` are shallowly embedded.  External collaborators
(camera, detector, aligner, similarity scorer, WiFi, SMTP) are modelled as
inputs to each cycle: a `Candidate` records, for one detected bounding
box, whether `aligned_face_align` succeeds on it and, if so, the
similarity score `fr_recognize_face` returns (scores are rationals
standing for the device floats).  All state the loop mutates
(`attemptCount`, `authorized_face`) is passed explicitly.
-/

namespace VehicleTracking

/-- Constant `MAX_ATTEMPTS` from `main.cpp` line 80. -/
def MAX_ATTEMPTS : Nat := 3

/-- Threshold `0.6f` from the comparison at `main.cpp` line 234, as a
rational. -/
def MATCH_THRESHOLD : ℚ := 3 / 5

/-- Constant `dummyLat` from `main.cpp` line 81. -/
def dummyLat : ℚ := -262041 / 10000

/-- Constant `dummyLng` from `main.cpp` line 82. -/
def dummyLng : ℚ := 280473 / 10000

/-- One detected bounding box of the run-time frame, together with the
outcome of the collaborator calls the loop would make on it:
whether `aligned_face_align` succeeds, and the score `fr_recognize_face`
would return for the aligned face. -/
structure Candidate where
  aligns : Bool
  score : ℚ
deriving Repr, DecidableEq

/-- Argument record of one `sendToThingSpeak` invocation
(`main.cpp` line 361). -/
structure TSArgs where
  lat : ℚ
  lng : ℚ
  accessStatus : Nat
  intruderAlert : Nat
deriving Repr, DecidableEq

/-- Model of `sendToThingSpeak` (`main.cpp` lines 361-384): when WiFi is
not connected it returns at once without issuing the HTTP request;
otherwise it issues one GET carrying the four payload fields.  The
returned value is the request issued, `none` when none was. -/
def sendToThingSpeak (wifiConnected : Bool) (lat lng : ℚ)
    (accessStatus intruderAlert : Nat) : Option TSArgs :=
  if !wifiConnected then none
  else some ⟨lat, lng, accessStatus, intruderAlert⟩

/-- Environment of one `loop()` iteration: outcomes of the collaborator
calls the cycle makes, in program order. -/
structure CycleInput where
  /-- Whether `esp_camera_fb_get()` returns a frame (line 205). -/
  captureOk : Bool
  /-- Whether `dl_matrix3du_alloc` for the working image succeeds
  (line 212). -/
  matrixAllocOk : Bool
  /-- Result of `face_detect` (line 221): `none` for a NULL
  `box_array_t`, otherwise the ordered detections, each with its
  align/score outcome. -/
  boxes : Option (List Candidate)
  /-- Whether `aligned_face_alloc()` in the match phase succeeds
  (line 229). -/
  alignedAllocOk : Bool
  /-- Result `sendEmailAlert()` would return (line 268); it is
  discarded by the caller. -/
  emailOk : Bool
  /-- Whether `WiFi.status() == WL_CONNECTED` holds when
  `sendToThingSpeak` runs (line 363). -/
  wifiConnected : Bool
deriving Repr, DecidableEq

/-- Everything observable about one `loop()` iteration. -/
structure CycleOutput where
  /-- The cycle ran to the end (no early return at lines 209/217). -/
  completed : Bool
  /-- Value of `face_recognized` at line 244: the AccessDecision
  (true = Granted). -/
  granted : Bool
  /-- Whether `intruderAlert` was set at line 267: an AlertEvent fired. -/
  alertFired : Bool
  /-- Value of `attemptCount` when the iteration returns. -/
  counterAfter : Nat
  /-- Largest value `attemptCount` held at any point of the iteration. -/
  counterPeak : Nat
  /-- Number of `aligned_face_align` calls made (line 232). -/
  alignCalls : Nat
  /-- Number of `fr_recognize_face` calls made (line 233). -/
  scoreCalls : Nat
  /-- Number of `sendEmailAlert` calls made (line 268). -/
  emailCalls : Nat
  /-- Arguments of the `sendToThingSpeak` call (line 273), if reached. -/
  tsCall : Option TSArgs
  /-- HTTP request `sendToThingSpeak` actually issued, if any. -/
  httpRequest : Option TSArgs
  /-- Delay run immediately before the iteration returns
  (line 208, 216 or 284). -/
  delayMs : Nat
deriving Repr, DecidableEq

/-- Model of the `for` loop over `net_boxes` (`main.cpp` lines 231-239):
scan the candidates in detection order; a candidate that fails alignment
is skipped; the first aligned candidate whose score strictly exceeds the
threshold breaks the loop with recognition.  Returns
(`face_recognized`, align-call count, score-call count). -/
def recognizeScan (thr : ℚ) : List Candidate → Bool × Nat × Nat
  | [] => (false, 0, 0)
  | c :: rest =>
    if c.aligns then
      if thr < c.score then (true, 1, 1)
      else
        match recognizeScan thr rest with
        | (r, a, s) => (r, a + 1, s + 1)
    else
      match recognizeScan thr rest with
      | (r, a, s) => (r, a + 1, s)

/-- Model of `net_boxes && net_boxes->len > 0` (`main.cpp` line 223). -/
def faceDetected (boxes : Option (List Candidate)) : Bool :=
  match boxes with
  | none => false
  | some bs => decide (0 < bs.length)

/-- One iteration of `loop()` (`main.cpp` lines 204-285), given the
enrollment state `authorized` (whether `authorized_face != NULL`), the
current `attemptCount`, and the cycle's collaborator outcomes. -/
def loop (authorized : Bool) (attemptCount : Nat) (inp : CycleInput) :
    CycleOutput :=
  if !inp.captureOk then
    { completed := false, granted := false, alertFired := false
      counterAfter := attemptCount, counterPeak := attemptCount
      alignCalls := 0, scoreCalls := 0, emailCalls := 0
      tsCall := none, httpRequest := none, delayMs := 500 }
  else if !inp.matrixAllocOk then
    { completed := false, granted := false, alertFired := false
      counterAfter := attemptCount, counterPeak := attemptCount
      alignCalls := 0, scoreCalls := 0, emailCalls := 0
      tsCall := none, httpRequest := none, delayMs := 200 }
  else
    let scan :=
      if faceDetected inp.boxes && authorized then
        if inp.alignedAllocOk then
          recognizeScan MATCH_THRESHOLD (inp.boxes.getD [])
        else (false, 0, 0)
      else (false, 0, 0)
    let face_recognized := scan.1
    if face_recognized then
      let args := sendToThingSpeak inp.wifiConnected dummyLat dummyLng 1 0
      { completed := true, granted := true, alertFired := false
        counterAfter := 0, counterPeak := attemptCount
        alignCalls := scan.2.1, scoreCalls := scan.2.2, emailCalls := 0
        tsCall := some ⟨dummyLat, dummyLng, 1, 0⟩
        httpRequest := args, delayMs := 2000 }
    else
      let bumped := attemptCount + 1
      if MAX_ATTEMPTS ≤ bumped then
        let args := sendToThingSpeak inp.wifiConnected dummyLat dummyLng 0 1
        { completed := true, granted := false, alertFired := true
          counterAfter := 0, counterPeak := bumped
          alignCalls := scan.2.1, scoreCalls := scan.2.2, emailCalls := 1
          tsCall := some ⟨dummyLat, dummyLng, 0, 1⟩
          httpRequest := args, delayMs := 2000 }
      else
        let args := sendToThingSpeak inp.wifiConnected dummyLat dummyLng 0 0
        { completed := true, granted := false, alertFired := false
          counterAfter := bumped, counterPeak := bumped
          alignCalls := scan.2.1, scoreCalls := scan.2.2, emailCalls := 0
          tsCall := some ⟨dummyLat, dummyLng, 0, 0⟩
          httpRequest := args, delayMs := 2000 }

/-- Value of `attemptCount` after running `loop()` over a list of cycle
environments, with the enrollment state fixed (as it is after `setup`). -/
def runCycles (authorized : Bool) : Nat → List CycleInput → Nat
  | c, [] => c
  | c, inp :: rest =>
    runCycles authorized (loop authorized c inp).counterAfter rest

/-- Environment of one `loadAuthorizedFace()` run
(`main.cpp` lines 288-359): outcomes of its collaborator calls in
program order.  `boxes` carries, for each detected box of the stored
image, whether `aligned_face_align` would succeed on it. -/
structure EnrollInput where
  /-- Whether `SD.open` yields a valid file (line 290). -/
  fileOpenOk : Bool
  /-- Whether `malloc(size)` succeeds (line 297). -/
  bufferAllocOk : Bool
  /-- Whether `dl_matrix3du_alloc(1, 320, 240, 3)` succeeds (line 306). -/
  imageAllocOk : Bool
  /-- Whether the `fmt2rgb888` JPEG decode succeeds (line 312). -/
  decodeOk : Bool
  /-- Result of `face_detect` (line 320): `none` for NULL, otherwise the
  per-box alignment outcomes in detection order. -/
  boxes : Option (List Bool)
  /-- Whether `aligned_face_alloc()` for the reference face succeeds
  (line 333). -/
  authAllocOk : Bool
deriving Repr, DecidableEq

/-- Model of `loadAuthorizedFace()` (`main.cpp` lines 288-359).  Returns
the pair (function result, whether `authorized_face != NULL` afterwards).
Alignment is attempted only on `boxes->box[0]`, the first detection. -/
def loadAuthorizedFace (inp : EnrollInput) : Bool × Bool :=
  if !inp.fileOpenOk then (false, false)
  else if !inp.bufferAllocOk then (false, false)
  else if !inp.imageAllocOk then (false, false)
  else if !inp.decodeOk then (false, false)
  else
    match inp.boxes with
    | none => (false, false)
    | some bs =>
      if bs.length = 0 then (false, false)
      else if inp.authAllocOk && bs.headD false then (true, true)
      else (false, false)

/-- Detections of the spec scenario: candidate A aligns with similarity
0.55, candidate B aligns with similarity 0.9, in that detection order. -/
def scanAB : List Candidate := [⟨true, 11/20⟩, ⟨true, 9/10⟩]

/-- Completed cycle whose detections are `scanAB`. -/
def cycleAB : CycleInput :=
  { captureOk := true, matrixAllocOk := true, boxes := some scanAB,
    alignedAllocOk := true, emailOk := true, wifiConnected := true }

/-- Completed cycle with one qualifying detection (similarity 0.9) but a
failing per-cycle `aligned_face_alloc`. -/
def cycleAllocFail : CycleInput :=
  { captureOk := true, matrixAllocOk := true, boxes := some [⟨true, 9/10⟩],
    alignedAllocOk := false, emailOk := true, wifiConnected := true }

/-- Completed cycle in which `face_detect` returned NULL. -/
def cycleNoFace : CycleInput :=
  { captureOk := true, matrixAllocOk := true, boxes := none,
    alignedAllocOk := true, emailOk := true, wifiConnected := true }

/-- Cycle in which `esp_camera_fb_get()` returns NULL. -/
def cycleCaptureFail : CycleInput :=
  { captureOk := false, matrixAllocOk := true, boxes := none,
    alignedAllocOk := true, emailOk := true, wifiConnected := true }

/-- Cycle in which `dl_matrix3du_alloc` returns NULL. -/
def cycleMatrixFail : CycleInput :=
  { captureOk := true, matrixAllocOk := false, boxes := none,
    alignedAllocOk := true, emailOk := true, wifiConnected := true }

/-- Completed cycle during which WiFi is disconnected. -/
def cycleWifiDown : CycleInput :=
  { captureOk := true, matrixAllocOk := true, boxes := none,
    alignedAllocOk := true, emailOk := true, wifiConnected := false }

/-- Enrollment run in which `/faces/user1.jpg` fails to open. -/
def enrollNoFile : EnrollInput :=
  { fileOpenOk := false, bufferAllocOk := true, imageAllocOk := true,
    decodeOk := true, boxes := some [true], authAllocOk := true }

/-- Enrollment run in which everything succeeds; the stored image holds
two detections, and only the first aligns. -/
def enrollGood : EnrollInput :=
  { fileOpenOk := true, bufferAllocOk := true, imageAllocOk := true,
    decodeOk := true, boxes := some [true, false], authAllocOk := true }

/-- Lemma: the scan succeeds exactly when some candidate aligns and its
score strictly exceeds the threshold. -/
theorem recognizeScan_any (thr : ℚ) (l : List Candidate) :
    (recognizeScan thr l).1 =
      l.any (fun c => c.aligns && decide (thr < c.score)) := by
  induction l with
  | nil => simp [recognizeScan]
  | cons c rest ih =>
    by_cases ha : c.aligns = true <;> by_cases hs : thr < c.score <;>
      simp [recognizeScan, ha, hs, ih]

/-- Lemma: the scan aligns exactly the candidates up to and including
the first qualifying one (all of them when none qualifies). -/
theorem recognizeScan_alignCalls (thr : ℚ) (l : List Candidate) :
    (recognizeScan thr l).2.1 =
      (match l.findIdx? (fun c => c.aligns && decide (thr < c.score)) with
       | some i => i + 1
       | none => l.length) := by
  induction l with
  | nil => simp [recognizeScan]
  | cons c rest ih =>
    by_cases ha : c.aligns = true <;> by_cases hs : thr < c.score <;>
      simp [recognizeScan, ha, hs, ih, List.findIdx?_cons] <;>
      rcases h : rest.findIdx? (fun c => c.aligns && decide (thr < c.score))
        with _ | i <;>
      simp [h]

/-- Lemma: the enrollment routine installs the reference face exactly
when it reports success. -/
theorem loadAuthorizedFace_snd_eq_fst (inp : EnrollInput) :
    (loadAuthorizedFace inp).2 = (loadAuthorizedFace inp).1 := by
  unfold loadAuthorizedFace
  repeat' split
  all_goals rfl

/-- Lemma: in a completed cycle with the reference face loaded, a
non-empty detection list, and a successful aligned-face allocation, the
decision and the align/score call counts are those of the scan. -/
theorem loop_match_phase (c : Nat) (inp : CycleInput) (bs : List Candidate)
    (hcap : inp.captureOk = true) (hmat : inp.matrixAllocOk = true)
    (hboxes : inp.boxes = some bs) (hne : bs ≠ [])
    (halloc : inp.alignedAllocOk = true) :
    (loop true c inp).granted = (recognizeScan MATCH_THRESHOLD bs).1 ∧
    (loop true c inp).alignCalls = (recognizeScan MATCH_THRESHOLD bs).2.1 ∧
    (loop true c inp).scoreCalls = (recognizeScan MATCH_THRESHOLD bs).2.2 := by
  have hfd : faceDetected (some bs) = true := by
    simp [faceDetected]
    exact List.length_pos.mpr hne
  by_cases hle : MAX_ATTEMPTS ≤ c + 1 <;>
    by_cases hrec : (recognizeScan MATCH_THRESHOLD bs).1 = true <;>
    simp [loop, hcap, hmat, hboxes, hfd, halloc, hle, hrec,
      apply_ite CycleOutput.granted, apply_ite CycleOutput.alignCalls,
      apply_ite CycleOutput.scoreCalls]

/-- Lemma: starting strictly below `MAX_ATTEMPTS`, one cycle keeps the
counter strictly below `MAX_ATTEMPTS` and its transient peak at most
`MAX_ATTEMPTS`. -/
theorem loop_counter_lt (auth : Bool) (c : Nat) (inp : CycleInput)
    (h : c < MAX_ATTEMPTS) :
    (loop auth c inp).counterAfter < MAX_ATTEMPTS ∧
    (loop auth c inp).counterPeak ≤ MAX_ATTEMPTS := by
  rcases hc : inp.captureOk <;> rcases hm : inp.matrixAllocOk <;>
    rcases auth <;>
    by_cases hle : MAX_ATTEMPTS ≤ c + 1 <;>
    by_cases hfd : faceDetected inp.boxes = true <;>
    by_cases hal : inp.alignedAllocOk = true <;>
    by_cases hrec : (recognizeScan MATCH_THRESHOLD (inp.boxes.getD [])).1 = true <;>
    simp [MAX_ATTEMPTS] at h hle ⊢ <;>
    simp [loop, hc, hm, hle, hfd, hal, hrec, MAX_ATTEMPTS,
      apply_ite CycleOutput.counterAfter, apply_ite CycleOutput.counterPeak] <;>
    (try split_ifs) <;> omega

/-- Lemma: the counter stays strictly below `MAX_ATTEMPTS` across any
run of cycles that starts strictly below it. -/
theorem runCycles_lt (auth : Bool) (inputs : List CycleInput) (c : Nat)
    (h : c < MAX_ATTEMPTS) : runCycles auth c inputs < MAX_ATTEMPTS := by
  induction inputs generalizing c with
  | nil => simpa [runCycles] using h
  | cons i rest ih =>
    simp only [runCycles]
    exact ih _ (loop_counter_lt auth c i h).1

/-- C1 (amended): in a completed cycle with the ReferenceFace loaded, a
non-empty detection result, and a successful aligned-face working-buffer
allocation, the decision is Granted iff some candidate aligns and its
similarity strictly exceeds 0.6, and the scan stops at the first such
candidate: when the first qualifying candidate has index i, exactly the
detections up to and including it are aligned. -/
theorem c1_first_match (c : Nat) (inp : CycleInput) (bs : List Candidate)
    (hcap : inp.captureOk = true) (hmat : inp.matrixAllocOk = true)
    (hboxes : inp.boxes = some bs) (hne : bs ≠ [])
    (halloc : inp.alignedAllocOk = true) :
    ((loop true c inp).granted = true ↔
      bs.any (fun cd => cd.aligns && decide (MATCH_THRESHOLD < cd.score)) = true) ∧
    (∀ i, bs.findIdx? (fun cd => cd.aligns && decide (MATCH_THRESHOLD < cd.score))
        = some i →
      (loop true c inp).alignCalls = i + 1) := by
  obtain ⟨hg, ha, -⟩ := loop_match_phase c inp bs hcap hmat hboxes hne halloc
  constructor
  · rw [hg, recognizeScan_any]
  · intro i hi
    rw [ha, recognizeScan_alignCalls, hi]

/-- C1 counterexample: with the ReferenceFace loaded and a non-empty
detection result holding a candidate of similarity 0.9, the decision is
nevertheless Denied when the per-cycle `aligned_face_alloc` fails, so
the claimed equivalence is false as stated. -/
theorem c1_counterexample :
    ¬ (((loop true 0 cycleAllocFail).granted = true) ↔
       ([(⟨true, 9/10⟩ : Candidate)].any
          (fun cd => cd.aligns && decide (MATCH_THRESHOLD < cd.score)) = true)) := by
  have hg : (loop true 0 cycleAllocFail).granted = false := by
    simp [loop, cycleAllocFail, faceDetected, MAX_ATTEMPTS,
      apply_ite CycleOutput.granted]
  have ha : ([(⟨true, 9/10⟩ : Candidate)].any
      (fun cd => cd.aligns && decide (MATCH_THRESHOLD < cd.score))) = true := by
    norm_num [MATCH_THRESHOLD]
  intro h
  rw [hg] at h
  simp [ha] at h

/-- C1 witness: detections A (0.55) then B (0.9) yield Granted, with
both candidates aligned (the scan rejected A and stopped at B). -/
theorem c1_witness :
    (loop true 0 cycleAB).granted = true ∧
    (loop true 0 cycleAB).alignCalls = 2 :=
  ⟨(c1_first_match 0 cycleAB scanAB rfl rfl rfl (by simp [scanAB]) rfl).1.mpr
      (by norm_num [scanAB, MATCH_THRESHOLD]),
   (c1_first_match 0 cycleAB scanAB rfl rfl rfl (by simp [scanAB]) rfl).2 1
      (by norm_num [scanAB, List.findIdx?_cons, MATCH_THRESHOLD])⟩

/-- C2: in every completed cycle, Granted resets the counter to 0;
Denied increments it, and when the incremented value reaches
`MAX_ATTEMPTS` exactly one alert is dispatched and the counter is reset;
the counter outcome is independent of the email result. -/
theorem c2_attempt_tracker (auth : Bool) (c : Nat) (inp : CycleInput)
    (hcap : inp.captureOk = true) (hmat : inp.matrixAllocOk = true) :
    ((loop auth c inp).granted = true → (loop auth c inp).counterAfter = 0) ∧
    ((loop auth c inp).granted = false →
      ((c + 1 < MAX_ATTEMPTS →
        (loop auth c inp).counterAfter = c + 1 ∧
        (loop auth c inp).alertFired = false ∧
        (loop auth c inp).emailCalls = 0) ∧
       (MAX_ATTEMPTS ≤ c + 1 →
        (loop auth c inp).alertFired = true ∧
        (loop auth c inp).emailCalls = 1 ∧
        (loop auth c inp).counterAfter = 0))) ∧
    (loop auth c { inp with emailOk := !inp.emailOk }).counterAfter =
      (loop auth c inp).counterAfter := by
  refine ⟨?_, ?_, rfl⟩ <;>
    rcases auth <;>
    by_cases hle : MAX_ATTEMPTS ≤ c + 1 <;>
    simp [MAX_ATTEMPTS] at hle <;>
    by_cases hfd : faceDetected inp.boxes = true <;>
    by_cases hal : inp.alignedAllocOk = true <;>
    by_cases hrec : (recognizeScan MATCH_THRESHOLD (inp.boxes.getD [])).1 = true <;>
    simp [loop, hcap, hmat, hle, hfd, hal, hrec, MAX_ATTEMPTS,
      apply_ite CycleOutput.granted, apply_ite CycleOutput.counterAfter,
      apply_ite CycleOutput.alertFired, apply_ite CycleOutput.emailCalls]

/-- C2 witness: a third consecutive denial (counter 2) fires the alert,
makes exactly one email dispatch, and resets the counter to 0. -/
theorem c2_witness :
    (loop true 2 cycleNoFace).alertFired = true ∧
    (loop true 2 cycleNoFace).emailCalls = 1 ∧
    (loop true 2 cycleNoFace).counterAfter = 0 :=
  ((c2_attempt_tracker true 2 cycleNoFace rfl rfl).2.1
      (by simp [loop, cycleNoFace, faceDetected, MAX_ATTEMPTS,
        apply_ite CycleOutput.granted])).2
    (by norm_num [MAX_ATTEMPTS])

/-- C3: started at 0, the attempt counter is strictly below
`MAX_ATTEMPTS` at every cycle boundary, and any cycle entered strictly
below `MAX_ATTEMPTS` ends strictly below it with the transient value
never exceeding `MAX_ATTEMPTS`. -/
theorem c3_counter_invariant (auth : Bool) (inputs : List CycleInput) :
    runCycles auth 0 inputs < MAX_ATTEMPTS ∧
    ∀ c inp, c < MAX_ATTEMPTS →
      (loop auth c inp).counterAfter < MAX_ATTEMPTS ∧
      (loop auth c inp).counterPeak ≤ MAX_ATTEMPTS :=
  ⟨runCycles_lt auth inputs 0 (by norm_num [MAX_ATTEMPTS]),
   fun c inp h => loop_counter_lt auth c inp h⟩

/-- C3 witness: a concrete run stays below `MAX_ATTEMPTS`, and a cycle
entered at counter 2 ends below `MAX_ATTEMPTS` with peak at most 3. -/
theorem c3_witness :
    runCycles true 0 [cycleNoFace] < MAX_ATTEMPTS ∧
    (loop true 2 cycleNoFace).counterAfter < MAX_ATTEMPTS ∧
    (loop true 2 cycleNoFace).counterPeak ≤ MAX_ATTEMPTS :=
  ⟨(c3_counter_invariant true [cycleNoFace]).1,
   (c3_counter_invariant true [cycleNoFace]).2 2 cycleNoFace
     (by norm_num [MAX_ATTEMPTS])⟩

/-- C4: when enrollment fails, every subsequent cycle is Denied and
makes no alignment and no similarity-scoring call, whatever the
detections. -/
theorem c4_no_reference (e : EnrollInput) (c : Nat) (inp : CycleInput)
    (henroll : (loadAuthorizedFace e).1 = false) :
    (loop (loadAuthorizedFace e).2 c inp).granted = false ∧
    (loop (loadAuthorizedFace e).2 c inp).alignCalls = 0 ∧
    (loop (loadAuthorizedFace e).2 c inp).scoreCalls = 0 := by
  have h2 : (loadAuthorizedFace e).2 = false := by
    rw [loadAuthorizedFace_snd_eq_fst e, henroll]
  rw [h2]
  rcases hc : inp.captureOk <;> rcases hm : inp.matrixAllocOk <;>
    simp [loop, hc, hm, apply_ite CycleOutput.granted,
      apply_ite CycleOutput.alignCalls, apply_ite CycleOutput.scoreCalls]

/-- C4 witness: after a failed enrollment, a cycle that detects the
candidates A and B (B scoring 0.9) is still Denied with no align/score
calls. -/
theorem c4_witness :
    (loop (loadAuthorizedFace enrollNoFile).2 0 cycleAB).granted = false ∧
    (loop (loadAuthorizedFace enrollNoFile).2 0 cycleAB).alignCalls = 0 ∧
    (loop (loadAuthorizedFace enrollNoFile).2 0 cycleAB).scoreCalls = 0 :=
  c4_no_reference enrollNoFile 0 cycleAB rfl

/-- C5: enrollment succeeds iff the stored image opens, the byte buffer
and raster allocations succeed, JPEG decoding succeeds, detection finds
at least one face, the reference-face allocation succeeds, and the
first detection aligns; the reference face is installed exactly on
success; and the outcome ignores every detection after the first. -/
theorem c5_enrollment (inp : EnrollInput) :
    ((loadAuthorizedFace inp).1 = true ↔
      (inp.fileOpenOk = true ∧ inp.bufferAllocOk = true ∧
       inp.imageAllocOk = true ∧ inp.decodeOk = true ∧
       (∃ b rest, inp.boxes = some (b :: rest) ∧ b = true) ∧
       inp.authAllocOk = true)) ∧
    (loadAuthorizedFace inp).2 = (loadAuthorizedFace inp).1 ∧
    (∀ b r r₁,
      loadAuthorizedFace { inp with boxes := some (b :: r) } =
        loadAuthorizedFace { inp with boxes := some (b :: r₁) }) := by
  refine ⟨?_, loadAuthorizedFace_snd_eq_fst inp, ?_⟩
  · rcases ho : inp.fileOpenOk <;> rcases hb : inp.bufferAllocOk <;>
      rcases hi : inp.imageAllocOk <;> rcases hd : inp.decodeOk <;>
      rcases hx : inp.boxes with _ | bs <;>
      simp [loadAuthorizedFace, ho, hb, hi, hd, hx]
    rcases bs with _ | ⟨b, rest⟩
    · simp
    · rcases ha : inp.authAllocOk <;> rcases b <;> simp [ha]
  · intro b r r₁
    simp [loadAuthorizedFace]

/-- C5 witness: a fully successful enrollment whose stored image had two
detections (only the first aligning) succeeds and installs the face. -/
theorem c5_witness :
    (loadAuthorizedFace enrollGood).1 = true ∧
    (loadAuthorizedFace enrollGood).2 = (loadAuthorizedFace enrollGood).1 :=
  ⟨(c5_enrollment enrollGood).1.mpr
      ⟨rfl, rfl, rfl, rfl, ⟨true, [false], rfl, rfl⟩, rfl⟩,
   (c5_enrollment enrollGood).2.1⟩

/-- C6: every completed cycle calls `sendToThingSpeak` exactly once,
with accessStatus reflecting the decision and intruderAlert reflecting
whether the alert fired; skipped cycles make no telemetry call; and a
cycle completes exactly when capture and the matrix allocation succeed. -/
theorem c6_telemetry (auth : Bool) (c : Nat) (inp : CycleInput) :
    ((loop auth c inp).completed = true →
      (loop auth c inp).tsCall =
        some ⟨dummyLat, dummyLng,
              if (loop auth c inp).granted then 1 else 0,
              if (loop auth c inp).alertFired then 1 else 0⟩) ∧
    ((loop auth c inp).completed = false → (loop auth c inp).tsCall = none) ∧
    (loop auth c inp).completed = (inp.captureOk && inp.matrixAllocOk) := by
  rcases hc : inp.captureOk <;> rcases hm : inp.matrixAllocOk <;>
    rcases auth <;>
    by_cases hle : MAX_ATTEMPTS ≤ c + 1 <;>
    by_cases hfd : faceDetected inp.boxes = true <;>
    by_cases hal : inp.alignedAllocOk = true <;>
    by_cases hrec : (recognizeScan MATCH_THRESHOLD (inp.boxes.getD [])).1 = true <;>
    simp [loop, hc, hm, hle, hfd, hal, hrec, apply_ite CycleOutput.completed,
      apply_ite CycleOutput.tsCall, apply_ite CycleOutput.granted,
      apply_ite CycleOutput.alertFired]

/-- C6 witness: a completed no-face cycle reports telemetry once with
accessStatus 0 and intruderAlert 0. -/
theorem c6_witness :
    (loop true 0 cycleNoFace).tsCall = some ⟨dummyLat, dummyLng, 0, 0⟩ := by
  rw [(c6_telemetry true 0 cycleNoFace).1 rfl]
  simp [loop, cycleNoFace, faceDetected, MAX_ATTEMPTS,
    apply_ite CycleOutput.granted, apply_ite CycleOutput.alertFired]

/-- C7: a cycle whose detection result is empty (NULL box array or zero
boxes) is Denied and makes no alignment and no similarity-scoring call. -/
theorem c7_empty_detection (auth : Bool) (c : Nat) (inp : CycleInput)
    (hempty : inp.boxes = none ∨ inp.boxes = some []) :
    (loop auth c inp).granted = false ∧ (loop auth c inp).alignCalls = 0 ∧
    (loop auth c inp).scoreCalls = 0 := by
  have hd : faceDetected inp.boxes = false := by
    rcases hempty with h | h <;> simp [faceDetected, h]
  rcases hc : inp.captureOk <;> rcases hm : inp.matrixAllocOk <;>
    simp [loop, hc, hm, hd, apply_ite CycleOutput.granted,
      apply_ite CycleOutput.alignCalls, apply_ite CycleOutput.scoreCalls]

/-- C7 witness: a cycle whose detector returned NULL is Denied with no
align or score calls. -/
theorem c7_witness :
    (loop true 1 cycleNoFace).granted = false ∧
    (loop true 1 cycleNoFace).alignCalls = 0 ∧
    (loop true 1 cycleNoFace).scoreCalls = 0 :=
  c7_empty_detection true 1 cycleNoFace (Or.inl rfl)

/-- C8 (amended): completed cycles run the fixed 2000 ms inter-cycle
delay, but the CaptureError early return delays only 500 ms and the
AllocationError early return only 200 ms before the next cycle. -/
theorem c8_exit_delays (auth : Bool) (c : Nat) (inp : CycleInput) :
    (loop auth c inp).delayMs =
      if inp.captureOk = false then 500
      else if inp.matrixAllocOk = false then 200
      else 2000 := by
  rcases hc : inp.captureOk <;> rcases hm : inp.matrixAllocOk <;>
    simp [loop, hc, hm, apply_ite CycleOutput.delayMs]

/-- C8 counterexample: the CaptureError early return delays 500 ms, not
the claimed fixed 2000 ms. -/
theorem c8_counterexample :
    (loop true 0 cycleCaptureFail).delayMs = 500 ∧
    ¬ (loop true 0 cycleCaptureFail).delayMs = 2000 := by
  constructor <;> simp [loop, cycleCaptureFail]

/-- C8 witness: the AllocationError early return runs the 200 ms delay. -/
theorem c8_witness :
    (loop true 0 cycleMatrixFail).delayMs =
      (if cycleMatrixFail.captureOk = false then 500
       else if cycleMatrixFail.matrixAllocOk = false then 200
       else 2000) :=
  c8_exit_delays true 0 cycleMatrixFail

/-- C9: in a completed cycle with the ReferenceFace loaded and a
non-empty detection result, a failing per-cycle aligned-face allocation
yields no align/score calls and a Denied decision handled exactly like
an ordinary non-match: the counter is incremented, firing the alert at
the threshold, and the cycle still completes. -/
theorem c9_aligned_alloc_failure (c : Nat) (inp : CycleInput)
    (hcap : inp.captureOk = true) (hmat : inp.matrixAllocOk = true)
    (hdet : faceDetected inp.boxes = true)
    (halloc : inp.alignedAllocOk = false) :
    (loop true c inp).alignCalls = 0 ∧ (loop true c inp).scoreCalls = 0 ∧
    (loop true c inp).granted = false ∧ (loop true c inp).completed = true ∧
    (loop true c inp).counterAfter =
      (if MAX_ATTEMPTS ≤ c + 1 then 0 else c + 1) ∧
    (loop true c inp).alertFired = decide (MAX_ATTEMPTS ≤ c + 1) := by
  by_cases hle : MAX_ATTEMPTS ≤ c + 1 <;>
    simp [loop, hcap, hmat, hdet, halloc, hle, apply_ite CycleOutput.granted,
      apply_ite CycleOutput.counterAfter, apply_ite CycleOutput.alertFired,
      apply_ite CycleOutput.alignCalls, apply_ite CycleOutput.scoreCalls,
      apply_ite CycleOutput.completed]

/-- C9 witness: with a 0.9-scoring detection but a failed aligned-face
allocation, the first cycle is Denied, completes, increments the counter
to 1, and fires no alert. -/
theorem c9_witness :
    (loop true 0 cycleAllocFail).alignCalls = 0 ∧
    (loop true 0 cycleAllocFail).scoreCalls = 0 ∧
    (loop true 0 cycleAllocFail).granted = false ∧
    (loop true 0 cycleAllocFail).completed = true ∧
    (loop true 0 cycleAllocFail).counterAfter =
      (if MAX_ATTEMPTS ≤ 0 + 1 then 0 else 0 + 1) ∧
    (loop true 0 cycleAllocFail).alertFired = decide (MAX_ATTEMPTS ≤ 0 + 1) :=
  c9_aligned_alloc_failure 0 cycleAllocFail rfl rfl rfl rfl

/-- C10: with WiFi disconnected, `sendToThingSpeak` issues no HTTP
request, so a completed cycle's telemetry call transmits nothing even
though the call itself was made. -/
theorem c10_wifi_down (lat lng : ℚ) (a i : Nat) (auth : Bool) (c : Nat)
    (inp : CycleInput) (hw : inp.wifiConnected = false)
    (hcap : inp.captureOk = true) (hmat : inp.matrixAllocOk = true) :
    sendToThingSpeak false lat lng a i = none ∧
    (loop auth c inp).httpRequest = none ∧
    (loop auth c inp).tsCall.isSome = true := by
  refine ⟨rfl, ?_⟩
  simp [loop, hcap, hmat, hw, sendToThingSpeak,
    apply_ite CycleOutput.httpRequest, apply_ite CycleOutput.tsCall,
    apply_ite Option.isSome]

/-- C10 witness: a completed cycle with WiFi down makes the telemetry
call but transmits no HTTP request. -/
theorem c10_witness :
    sendToThingSpeak false dummyLat dummyLng 1 0 = none ∧
    (loop true 0 cycleWifiDown).httpRequest = none ∧
    (loop true 0 cycleWifiDown).tsCall.isSome = true :=
  c10_wifi_down dummyLat dummyLng 1 0 true 0 cycleWifiDown rfl rfl rfl

end VehicleTracking
